import Mathlib

/-!
Shallow embedding of the gtc token counter (count_tokens.py and mcp_server.py).

The tokenizer library (tiktoken) is modelled as an opaque record of functions:
a library call that raises an unknown-name exception is modelled as
`Except.error msg`, where `msg` stands for the text of the raised exception.
The file system is modelled as a function from path strings to file states;
reading a file as UTF-8 either yields its decoded text or one of the failure
modes the source code distinguishes by exception type.
-/

deriving instance DecidableEq for Except

/-- Model of a tiktoken Encoding object: a name, a vocabulary size, and the
encode function from text to a token list. -/
structure Encoding where
  name : String
  n_vocab : Nat
  encode : String → List Nat

/-- The exception types the tokenizer library's resolution functions can
raise: tiktoken's `get_encoding` raises ValueError for an unknown encoding
name, and its `encoding_for_model` (and a plain dict access) raises
KeyError for an unknown model name. The distinction matters because
count_tokens.py catches only KeyError. `msg` carries `str(e)`. -/
inductive PyErr where
  | keyError (msg : String)
  | valueError (msg : String)
deriving DecidableEq

/-- The text `str(e)` of an exception, as interpolated into messages. -/
def PyErr.text : PyErr → String
  | PyErr.keyError msg => msg
  | PyErr.valueError msg => msg

/-- Model of the tiktoken library surface used by the source code.
Each function returns `Except.error e` when the real library would raise
the exception modelled by `e`. -/
structure Tiktoken where
  get_encoding : String → Except PyErr Encoding
  encoding_for_model : String → Except PyErr Encoding
  list_encoding_names : List String

/-- Outcome of `Path.read_text(encoding="utf-8")` on an existing regular file:
the decoded text, or the exception the source code distinguishes
(PermissionError, UnicodeDecodeError, or any other OSError with text `msg`). -/
inductive ReadOutcome where
  | ok (text : String)
  | permissionDenied
  | notUtf8
  | otherError (msg : String)
deriving DecidableEq

/-- State of a path in the modelled file system. -/
inductive FsNode where
  | absent
  | dir
  | file (r : ReadOutcome)
deriving DecidableEq

/-- Model of the process environment: the file system, and `Path(".").glob`
for patterns the shell did not expand. -/
structure Env where
  fs : String → FsNode
  glob : String → List String

/-- Model of `Path.is_dir()`. A nonexistent path is not a directory. -/
def Env.is_dir (env : Env) (p : String) : Bool :=
  decide (env.fs p = FsNode.dir)

/-- Model of the text of the PermissionError raised by reading `p`. -/
def permissionErrorText (p : String) : String :=
  "Permission denied reading " ++ p

/-- Model of the text of the IsADirectoryError raised by `read_text` on a
directory path `p` (reachable only in the CLI helper `count_file_tokens`,
which does not pre-check `is_dir`). -/
def isADirectoryErrorText (p : String) : String :=
  "Is a directory: " ++ p

/-- Default model name, identical in both source files. -/
def DEFAULT_MODEL : String := "gpt-5"

/-- Static model-to-encoding table, identical in both source files. -/
def MODEL_ENCODINGS : List (String × String) :=
  [("gpt-5", "o200k_base"),
   ("gpt-4o", "o200k_base"),
   ("gpt-4o-mini", "o200k_base"),
   ("gpt-4-turbo", "cl100k_base"),
   ("gpt-4", "cl100k_base"),
   ("gpt-3.5-turbo", "cl100k_base"),
   ("text-embedding-3-small", "cl100k_base"),
   ("text-embedding-3-large", "cl100k_base"),
   ("text-embedding-ada-002", "cl100k_base")]

/-- Python truthiness of an `Optional[str]`: true iff the value is neither
None nor the empty string. This is what `if encoding:` and `elif model:`
test in `get_encoder`. -/
def pyTruthy (s : Option String) : Bool :=
  decide (s.getD "" ≠ "")

/-- Embedding of `get_encoder(model, encoding)`, defined identically in
count_tokens.py and mcp_server.py. The final branch models the dict access
`MODEL_ENCODINGS[DEFAULT_MODEL]`, whose KeyError branch is unreachable
because the key is present. -/
def get_encoder (lib : Tiktoken) (model : Option String) (encoding : Option String) :
    Except PyErr Encoding :=
  if pyTruthy encoding then
    lib.get_encoding (encoding.getD "")
  else if pyTruthy model then
    match List.lookup (model.getD "") MODEL_ENCODINGS with
    | some e => lib.get_encoding e
    | none => lib.encoding_for_model (model.getD "")
  else
    match List.lookup DEFAULT_MODEL MODEL_ENCODINGS with
    | some e => lib.get_encoding e
    | none => Except.error (PyErr.keyError DEFAULT_MODEL)

namespace Cli

/-- Embedding of `count_tokens(text, encoder)` from count_tokens.py. -/
def count_tokens (text : String) (encoder : Encoding) : Nat :=
  (encoder.encode text).length

/-- Embedding of `count_file_tokens(filepath, encoder)` from count_tokens.py.
The Python function wraps the read and encode in try/except clauses for
FileNotFoundError, PermissionError, UnicodeDecodeError and a final catch-all
`Exception`; a directory path raises IsADirectoryError, which lands in the
catch-all. -/
def count_file_tokens (env : Env) (filepath : String) (encoder : Encoding) :
    Nat × Option String :=
  match env.fs filepath with
  | FsNode.file (ReadOutcome.ok content) => (count_tokens content encoder, none)
  | FsNode.absent => (0, some ("File not found: " ++ filepath))
  | FsNode.file ReadOutcome.permissionDenied => (0, some ("Permission denied: " ++ filepath))
  | FsNode.file ReadOutcome.notUtf8 =>
      (0, some ("Unable to decode file (not UTF-8): " ++ filepath))
  | FsNode.file (ReadOutcome.otherError m) =>
      (0, some ("Error reading " ++ filepath ++ ": " ++ m))
  | FsNode.dir =>
      (0, some ("Error reading " ++ filepath ++ ": " ++ isADirectoryErrorText filepath))

/-- Parsed CLI arguments, after argparse. `model` always has a string value
(argparse default DEFAULT_MODEL); `encoding` defaults to None. -/
structure Args where
  files : List String
  model : String := DEFAULT_MODEL
  encoding : Option String := none
  verbose : Bool := false
  list_encodings_flag : Bool := false

/-- Accumulator of the processing loop in `main`: the `results`, `errors`
and `total_tokens` variables. -/
structure Acc where
  results : List (String × Nat)
  errors : List String
  total_tokens : Nat
deriving DecidableEq

/-- Embedding of the inner loop body of `main` (for one concrete file path):
skip directories with an error entry, otherwise call `count_file_tokens`
and append to `errors` or to `results` and the running total. -/
def processFile (env : Env) (encoder : Encoding) (acc : Acc) (file_path : String) : Acc :=
  if env.is_dir file_path then
    { acc with errors := acc.errors ++ ["Skipping directory: " ++ file_path] }
  else
    match count_file_tokens env file_path encoder with
    | (_, some err) => { acc with errors := acc.errors ++ [err] }
    | (token_count, none) =>
        { results := acc.results ++ [(file_path, token_count)],
          errors := acc.errors,
          total_tokens := acc.total_tokens + token_count }

/-- Embedding of the outer loop body of `main` (for one command-line
argument): expand glob patterns the shell did not, reporting an empty match
as an error, then process every concrete path. -/
def processArg (env : Env) (encoder : Encoding) (acc : Acc) (filepath : String) : Acc :=
  if filepath.data.contains '*' then
    match env.glob filepath with
    | [] => { acc with errors := acc.errors ++ ["No files match pattern: " ++ filepath] }
    | expanded => expanded.foldl (processFile env encoder) acc
  else
    processFile env encoder acc filepath

/-- The whole processing loop of `main`, starting from empty accumulators. -/
def run (env : Env) (encoder : Encoding) (files : List String) : Acc :=
  files.foldl (processArg env encoder) ⟨[], [], 0⟩

/-- Observable outcome of a CLI invocation. `usageError` is the
`parser.error` path (argparse exits with status 2); `listed` is the
`--list-encodings` path (its printed listing is presentation only and not
modelled); `resolutionError` carries the message printed when `get_encoder`
raises a KeyError, the only exception the source's `except KeyError`
clause catches; `crashed` is an exception that no clause catches (such as
the ValueError `get_encoding` raises for an unknown encoding name), which
escapes `main` and aborts the interpreter with a traceback; `ran` carries
the collected results, errors, total and the returned exit code. -/
inductive Outcome where
  | usageError
  | listed
  | resolutionError (msg : String)
  | crashed (exc : PyErr)
  | ran (results : List (String × Nat)) (errors : List String)
      (total_tokens : Nat) (code : Nat)
deriving DecidableEq

/-- Process exit status of an outcome. The Python interpreter exits with
status 1 when an uncaught exception terminates the program. -/
def Outcome.exit_code : Outcome → Nat
  | Outcome.usageError => 2
  | Outcome.listed => 0
  | Outcome.resolutionError _ => 1
  | Outcome.crashed _ => 1
  | Outcome.ran _ _ _ c => c

/-- Embedding of `main()` from count_tokens.py: handle `--list-encodings`,
require at least one file, resolve the encoder — the surrounding
`try/except KeyError` catches only KeyError, printing the error and
returning 1, while any other exception (tiktoken's `get_encoding` raises
ValueError for an unknown encoding name) propagates uncaught — then run
the loop and compute the exit code `1 if (not results and errors)
else 0`. -/
def main (lib : Tiktoken) (env : Env) (args : Args) : Outcome :=
  if args.list_encodings_flag then
    Outcome.listed
  else if args.files.isEmpty then
    Outcome.usageError
  else
    match get_encoder lib (some args.model) args.encoding with
    | Except.error (PyErr.keyError m) =>
        Outcome.resolutionError ("Error: Unknown model or encoding: " ++ m)
    | Except.error (PyErr.valueError m) =>
        Outcome.crashed (PyErr.valueError m)
    | Except.ok encoder =>
        let acc := run env encoder args.files
        Outcome.ran acc.results acc.errors acc.total_tokens
          (if acc.results = [] ∧ acc.errors ≠ [] then 1 else 0)

/-- Classification of what the CLI loop does with one concrete (non-glob)
path: the token count recorded on success, or the error string appended on
failure. This is a proof device characterising `processFile`. -/
def fileOutcome (env : Env) (encoder : Encoding) (p : String) : Except String Nat :=
  if env.is_dir p then
    Except.error ("Skipping directory: " ++ p)
  else
    match count_file_tokens env p encoder with
    | (_, some m) => Except.error m
    | (n, none) => Except.ok n

/-- The result-list entry a path contributes, if any. -/
def successEntry (env : Env) (encoder : Encoding) (p : String) : Option (String × Nat) :=
  match fileOutcome env encoder p with
  | Except.ok n => some (p, n)
  | Except.error _ => none

/-- The error-list entry a path contributes, if any. -/
def errorEntry (env : Env) (encoder : Encoding) (p : String) : Option String :=
  match fileOutcome env encoder p with
  | Except.ok _ => none
  | Except.error m => some m

/-- The contribution of a path to the running total. -/
def tokensOf (env : Env) (encoder : Encoding) (p : String) : Nat :=
  match fileOutcome env encoder p with
  | Except.ok n => n
  | Except.error _ => 0

end Cli

namespace Mcp

/-- Result record of the `count_tokens` tool. Keys absent from the returned
Python dict are modelled as `none`. -/
structure SingleResult where
  error : Option String
  file_path : String
  tokens : Nat
  model : Option String
  encoding : Option String
deriving DecidableEq

/-- Embedding of the `count_tokens` MCP tool. Its whole body is wrapped in
try/except with a final catch-all, so a KeyError from `get_encoder` is
converted to an error record; note the existence and directory checks come
before encoder resolution. -/
def count_tokens (lib : Tiktoken) (env : Env) (file_path : String) (model : String) :
    SingleResult :=
  match env.fs file_path with
  | FsNode.absent =>
      { error := some ("File not found: " ++ file_path), file_path := file_path,
        tokens := 0, model := none, encoding := none }
  | FsNode.dir =>
      { error := some ("Path is a directory: " ++ file_path), file_path := file_path,
        tokens := 0, model := none, encoding := none }
  | FsNode.file r =>
      match get_encoder lib (some model) none with
      | Except.error e =>
          { error := some e.text, file_path := file_path,
            tokens := 0, model := none, encoding := none }
      | Except.ok encoder =>
          match r with
          | ReadOutcome.ok content =>
              { error := none, file_path := file_path,
                tokens := (encoder.encode content).length,
                model := some model, encoding := some encoder.name }
          | ReadOutcome.permissionDenied =>
              { error := some (permissionErrorText file_path), file_path := file_path,
                tokens := 0, model := none, encoding := none }
          | ReadOutcome.notUtf8 =>
              { error := some ("Unable to decode file (not UTF-8): " ++ file_path),
                file_path := file_path, tokens := 0, model := none, encoding := none }
          | ReadOutcome.otherError m =>
              { error := some m, file_path := file_path,
                tokens := 0, model := none, encoding := none }

/-- One per-file entry of the `count_tokens_multi` result. -/
structure FileTokens where
  file_path : String
  tokens : Nat
deriving DecidableEq

/-- Accumulator of the loop in `count_tokens_multi`. -/
structure MultiAcc where
  results : List FileTokens
  errors : List String
  total_tokens : Nat
deriving DecidableEq

/-- Embedding of the loop body of `count_tokens_multi` for one path: the
existence and directory pre-checks, then the read and encode, with per-file
try/except converting UnicodeDecodeError and any other exception into an
error entry. -/
def multiStep (env : Env) (encoder : Encoding) (acc : MultiAcc) (file_path : String) :
    MultiAcc :=
  match env.fs file_path with
  | FsNode.absent =>
      { acc with errors := acc.errors ++ ["File not found: " ++ file_path] }
  | FsNode.dir =>
      { acc with errors := acc.errors ++ ["Path is a directory: " ++ file_path] }
  | FsNode.file (ReadOutcome.ok content) =>
      { results := acc.results ++ [⟨file_path, (encoder.encode content).length⟩],
        errors := acc.errors,
        total_tokens := acc.total_tokens + (encoder.encode content).length }
  | FsNode.file ReadOutcome.permissionDenied =>
      { acc with errors := acc.errors ++
          ["Error reading " ++ file_path ++ ": " ++ permissionErrorText file_path] }
  | FsNode.file ReadOutcome.notUtf8 =>
      { acc with errors := acc.errors ++
          ["Unable to decode file (not UTF-8): " ++ file_path] }
  | FsNode.file (ReadOutcome.otherError m) =>
      { acc with errors := acc.errors ++ ["Error reading " ++ file_path ++ ": " ++ m] }

/-- Result record of the `count_tokens_multi` tool. The Python value
`errors if errors else None` is modelled by the Option field. -/
structure MultiResult where
  files : List FileTokens
  total_tokens : Nat
  file_count : Nat
  model : String
  encoding : String
  errors : Option (List String)
deriving DecidableEq

/-- Embedding of the `count_tokens_multi` MCP tool. The call to
`get_encoder` sits outside any try/except, so any exception it raises
propagates out of the function, modelled by `Except.error`. -/
def count_tokens_multi (lib : Tiktoken) (env : Env) (file_paths : List String)
    (model : String) : Except PyErr MultiResult :=
  match get_encoder lib (some model) none with
  | Except.error e => Except.error e
  | Except.ok encoder =>
      let acc := file_paths.foldl (multiStep env encoder) ⟨[], [], 0⟩
      Except.ok
        { files := acc.results,
          total_tokens := acc.total_tokens,
          file_count := acc.results.length,
          model := model,
          encoding := encoder.name,
          errors := if acc.errors = [] then none else some acc.errors }

/-- Result record of the `count_text_tokens` tool. -/
structure TextResult where
  tokens : Nat
  characters : Nat
  model : String
  encoding : String
deriving DecidableEq

/-- Embedding of the `count_text_tokens` MCP tool. It has no try/except at
all, so any exception `get_encoder` raises propagates out, modelled by
`Except.error`. -/
def count_text_tokens (lib : Tiktoken) (text : String) (model : String) :
    Except PyErr TextResult :=
  match get_encoder lib (some model) none with
  | Except.error e => Except.error e
  | Except.ok encoder =>
      Except.ok
        { tokens := (encoder.encode text).length,
          characters := text.length,
          model := model,
          encoding := encoder.name }

/-- One entry of the `list_encodings` result. -/
structure EncodingInfo where
  name : String
  vocab_size : Nat
deriving DecidableEq

/-- Result record of the `list_encodings` tool. -/
structure ListEncodingsResult where
  encodings : List EncodingInfo
  model_mappings : List (String × String)
  default_model : String
deriving DecidableEq

/-- Embedding of the `list_encodings` MCP tool: every name the library
lists is resolved through `get_encoding` for its vocabulary size. -/
def list_encodings (lib : Tiktoken) : Except PyErr ListEncodingsResult :=
  match lib.list_encoding_names.mapM
      (fun n => (lib.get_encoding n).map (fun enc => EncodingInfo.mk n enc.n_vocab)) with
  | Except.error e => Except.error e
  | Except.ok encodings =>
      Except.ok
        { encodings := encodings,
          model_mappings := MODEL_ENCODINGS,
          default_model := DEFAULT_MODEL }

/-- Classification of what `count_tokens_multi` does with one path: the
token count recorded on success, or the error string appended on failure.
This is a proof device characterising `multiStep`. -/
def fileOutcome (env : Env) (encoder : Encoding) (file_path : String) : Except String Nat :=
  match env.fs file_path with
  | FsNode.absent => Except.error ("File not found: " ++ file_path)
  | FsNode.dir => Except.error ("Path is a directory: " ++ file_path)
  | FsNode.file (ReadOutcome.ok content) => Except.ok (encoder.encode content).length
  | FsNode.file ReadOutcome.permissionDenied =>
      Except.error ("Error reading " ++ file_path ++ ": " ++ permissionErrorText file_path)
  | FsNode.file ReadOutcome.notUtf8 =>
      Except.error ("Unable to decode file (not UTF-8): " ++ file_path)
  | FsNode.file (ReadOutcome.otherError m) =>
      Except.error ("Error reading " ++ file_path ++ ": " ++ m)

/-- The files-list entry a path contributes, if any. -/
def successEntry (env : Env) (encoder : Encoding) (p : String) : Option FileTokens :=
  match fileOutcome env encoder p with
  | Except.ok n => some ⟨p, n⟩
  | Except.error _ => none

/-- The errors-list entry a path contributes, if any. -/
def errorEntry (env : Env) (encoder : Encoding) (p : String) : Option String :=
  match fileOutcome env encoder p with
  | Except.ok _ => none
  | Except.error m => some m

/-- The contribution of a path to the running total. -/
def tokensOf (env : Env) (encoder : Encoding) (p : String) : Nat :=
  match fileOutcome env encoder p with
  | Except.ok n => n
  | Except.error _ => 0

end Mcp

/-- A concrete encoder used by the witness library model: every character
becomes one token. -/
def encOf (n : String) : Encoding :=
  { name := n, n_vocab := 100, encode := fun s => List.replicate s.length 0 }

/-- A concrete model of the tiktoken library for witnesses: it knows the
two encodings the static table uses and one extra model name, raising
ValueError from `get_encoding` and KeyError from `encoding_for_model` as
the real library does. -/
def libW : Tiktoken :=
  { get_encoding := fun n =>
      if n = "o200k_base" then Except.ok (encOf "o200k_base")
      else if n = "cl100k_base" then Except.ok (encOf "cl100k_base")
      else Except.error (PyErr.valueError ("Unknown encoding " ++ n)),
    encoding_for_model := fun m =>
      if m = "davinci-002" then Except.ok (encOf "r50k_base")
      else Except.error
        (PyErr.keyError ("Could not automatically map " ++ m ++ " to a tokeniser.")),
    list_encoding_names := ["o200k_base", "cl100k_base"] }

/-- A concrete environment for witnesses: two readable files, a directory,
a permission-denied file, everything else absent; glob always empty. -/
def envW : Env :=
  { fs := fun p =>
      if p = "a.txt" then FsNode.file (ReadOutcome.ok "hi")
      else if p = "b.txt" then FsNode.file (ReadOutcome.ok "hello")
      else if p = "d" then FsNode.dir
      else if p = "locked.txt" then FsNode.file ReadOutcome.permissionDenied
      else FsNode.absent,
    glob := fun _ => [] }

/-- Concrete CLI arguments for witnesses. -/
def argsW : Cli.Args :=
  { files := ["a.txt"], model := DEFAULT_MODEL, encoding := none,
    verbose := false, list_encodings_flag := false }

/-- The encoder the witness library resolves for the default model. -/
def encW : Encoding := encOf "o200k_base"

/-- A string with a nonempty left part of an append is nonempty. -/
theorem string_append_ne_empty (s t : String) (hs : s ≠ "") : s ++ t ≠ "" := by
  intro h
  apply hs
  have hlen := congrArg String.length h
  rw [String.length_append] at hlen
  have h0 : s.length = 0 := by
    have hz : String.length "" = 0 := rfl
    omega
  cases s with
  | mk data =>
      cases data with
      | nil => rfl
      | cons c cs => simp [String.length] at h0

/-- The loop body of `count_tokens_multi` appends exactly one entry, to the
result list or to the error list, as classified by `Mcp.fileOutcome`. -/
theorem mcp_multiStep_eq (env : Env) (encoder : Encoding) (acc : Mcp.MultiAcc) (p : String) :
    Mcp.multiStep env encoder acc p =
      (match Mcp.fileOutcome env encoder p with
       | Except.ok n => ⟨acc.results ++ [⟨p, n⟩], acc.errors, acc.total_tokens + n⟩
       | Except.error m => ⟨acc.results, acc.errors ++ [m], acc.total_tokens⟩) := by
  cases hfs : env.fs p with
  | absent => simp [Mcp.multiStep, Mcp.fileOutcome, hfs]
  | dir => simp [Mcp.multiStep, Mcp.fileOutcome, hfs]
  | file r => cases r <;> simp [Mcp.multiStep, Mcp.fileOutcome, hfs]

/-- Invariant of the `count_tokens_multi` fold: starting from any
accumulator, the fold appends the success entries, the error entries and
the token total contributed by the processed paths, in input order. -/
theorem mcp_fold_spec (env : Env) (encoder : Encoding) (paths : List String) :
    ∀ acc : Mcp.MultiAcc,
      (List.foldl (Mcp.multiStep env encoder) acc paths).results
          = acc.results ++ List.filterMap (Mcp.successEntry env encoder) paths ∧
      (List.foldl (Mcp.multiStep env encoder) acc paths).errors
          = acc.errors ++ List.filterMap (Mcp.errorEntry env encoder) paths ∧
      (List.foldl (Mcp.multiStep env encoder) acc paths).total_tokens
          = acc.total_tokens + (List.map (Mcp.tokensOf env encoder) paths).sum := by
  induction paths with
  | nil => intro acc; simp
  | cons p ps ih =>
      intro acc
      rw [List.foldl_cons, mcp_multiStep_eq]
      cases ho : Mcp.fileOutcome env encoder p with
      | ok n =>
          have h := ih ⟨acc.results ++ [⟨p, n⟩], acc.errors, acc.total_tokens + n⟩
          simp only [ho]
          refine ⟨?_, ?_, ?_⟩
          · rw [h.1]
            simp [Mcp.successEntry, ho]
          · rw [h.2.1]
            simp [Mcp.errorEntry, ho]
          · rw [h.2.2]
            simp [Mcp.tokensOf, ho]
            omega
      | error m =>
          have h := ih ⟨acc.results, acc.errors ++ [m], acc.total_tokens⟩
          simp only [ho]
          refine ⟨?_, ?_, ?_⟩
          · rw [h.1]
            simp [Mcp.successEntry, ho]
          · rw [h.2.1]
            simp [Mcp.errorEntry, ho]
          · rw [h.2.2]
            simp [Mcp.tokensOf, ho]

/-- The token total of the successful entries equals the total of the
per-path contributions (errors contribute zero). -/
theorem mcp_sum_tokens (env : Env) (encoder : Encoding) (paths : List String) :
    (List.map Mcp.FileTokens.tokens
        (List.filterMap (Mcp.successEntry env encoder) paths)).sum
      = (List.map (Mcp.tokensOf env encoder) paths).sum := by
  induction paths with
  | nil => rfl
  | cons p ps ih =>
      cases ho : Mcp.fileOutcome env encoder p <;>
        simp [Mcp.successEntry, Mcp.tokensOf, ho, List.filterMap_cons, ih]

/-- Every path contributes exactly one entry, to the success list or to the
error list. -/
theorem mcp_entry_length (env : Env) (encoder : Encoding) (paths : List String) :
    (List.filterMap (Mcp.successEntry env encoder) paths).length
        + (List.filterMap (Mcp.errorEntry env encoder) paths).length
      = paths.length := by
  induction paths with
  | nil => rfl
  | cons p ps ih =>
      cases ho : Mcp.fileOutcome env encoder p <;>
        simp [Mcp.successEntry, Mcp.errorEntry, ho, List.filterMap_cons] <;>
        omega

/-- Characterisation of a successful `count_tokens_multi` call in terms of
the per-path classification. -/
theorem mcp_multi_ok (lib : Tiktoken) (env : Env) (paths : List String) (model : String)
    (encoder : Encoding) (hres : get_encoder lib (some model) none = Except.ok encoder) :
    Mcp.count_tokens_multi lib env paths model =
      Except.ok
        { files := List.filterMap (Mcp.successEntry env encoder) paths,
          total_tokens := (List.map (Mcp.tokensOf env encoder) paths).sum,
          file_count := (List.filterMap (Mcp.successEntry env encoder) paths).length,
          model := model,
          encoding := encoder.name,
          errors :=
            if List.filterMap (Mcp.errorEntry env encoder) paths = [] then none
            else some (List.filterMap (Mcp.errorEntry env encoder) paths) } := by
  have h := mcp_fold_spec env encoder paths ⟨[], [], 0⟩
  simp only [Mcp.count_tokens_multi, hres]
  simp only [List.nil_append] at h
  rw [h.1, h.2.1, h.2.2]
  simp

/-- The inner CLI loop body appends exactly one entry, to the result list
or to the error list, as classified by `Cli.fileOutcome`. -/
theorem cli_processFile_eq (env : Env) (encoder : Encoding) (acc : Cli.Acc) (p : String) :
    Cli.processFile env encoder acc p =
      (match Cli.fileOutcome env encoder p with
       | Except.ok n => ⟨acc.results ++ [(p, n)], acc.errors, acc.total_tokens + n⟩
       | Except.error m => ⟨acc.results, acc.errors ++ [m], acc.total_tokens⟩) := by
  by_cases hd : env.is_dir p
  · simp [Cli.processFile, Cli.fileOutcome, hd]
  · cases hc : Cli.count_file_tokens env p encoder with
    | mk n e =>
        cases e <;> simp [Cli.processFile, Cli.fileOutcome, hd, hc]

/-- On an argument without a glob character, the outer CLI loop body is the
inner one. -/
theorem cli_processArg_no_star (env : Env) (encoder : Encoding) (acc : Cli.Acc)
    (p : String) (hstar : p.data.contains '*' = false) :
    Cli.processArg env encoder acc p = Cli.processFile env encoder acc p := by
  simp only [Cli.processArg, hstar, Bool.false_eq_true, if_false]

/-- Invariant of the CLI fold over glob-free arguments: starting from any
accumulator, the fold appends the success entries, the error entries and
the token total contributed by the processed paths, in input order. -/
theorem cli_fold_spec (env : Env) (encoder : Encoding) (files : List String) :
    ∀ acc : Cli.Acc, (∀ p ∈ files, p.data.contains '*' = false) →
      (List.foldl (Cli.processArg env encoder) acc files).results
          = acc.results ++ List.filterMap (Cli.successEntry env encoder) files ∧
      (List.foldl (Cli.processArg env encoder) acc files).errors
          = acc.errors ++ List.filterMap (Cli.errorEntry env encoder) files ∧
      (List.foldl (Cli.processArg env encoder) acc files).total_tokens
          = acc.total_tokens + (List.map (Cli.tokensOf env encoder) files).sum := by
  induction files with
  | nil => intro acc _; simp
  | cons p ps ih =>
      intro acc hstar
      have hp : p.data.contains '*' = false := hstar p (List.mem_cons_self p ps)
      have hps : ∀ q ∈ ps, q.data.contains '*' = false :=
        fun q hq => hstar q (List.mem_cons_of_mem p hq)
      rw [List.foldl_cons, cli_processArg_no_star env encoder acc p hp, cli_processFile_eq]
      cases ho : Cli.fileOutcome env encoder p with
      | ok n =>
          have h := ih ⟨acc.results ++ [(p, n)], acc.errors, acc.total_tokens + n⟩ hps
          simp only [ho]
          refine ⟨?_, ?_, ?_⟩
          · rw [h.1]
            simp [Cli.successEntry, ho]
          · rw [h.2.1]
            simp [Cli.errorEntry, ho]
          · rw [h.2.2]
            simp [Cli.tokensOf, ho]
            omega
      | error m =>
          have h := ih ⟨acc.results, acc.errors ++ [m], acc.total_tokens⟩ hps
          simp only [ho]
          refine ⟨?_, ?_, ?_⟩
          · rw [h.1]
            simp [Cli.successEntry, ho]
          · rw [h.2.1]
            simp [Cli.errorEntry, ho]
          · rw [h.2.2]
            simp [Cli.tokensOf, ho]

/-- Characterisation of `Cli.run` on glob-free arguments. -/
theorem cli_run_spec (env : Env) (encoder : Encoding) (files : List String)
    (hstar : ∀ p ∈ files, p.data.contains '*' = false) :
    (Cli.run env encoder files).results
        = List.filterMap (Cli.successEntry env encoder) files ∧
    (Cli.run env encoder files).errors
        = List.filterMap (Cli.errorEntry env encoder) files ∧
    (Cli.run env encoder files).total_tokens
        = (List.map (Cli.tokensOf env encoder) files).sum := by
  have h := cli_fold_spec env encoder files ⟨[], [], 0⟩ hstar
  simpa [Cli.run] using h

/-- The CLI token total of the successful entries equals the total of the
per-path contributions (errors contribute zero). -/
theorem cli_sum_tokens (env : Env) (encoder : Encoding) (files : List String) :
    (List.map Prod.snd (List.filterMap (Cli.successEntry env encoder) files)).sum
      = (List.map (Cli.tokensOf env encoder) files).sum := by
  induction files with
  | nil => rfl
  | cons p ps ih =>
      cases ho : Cli.fileOutcome env encoder p <;>
        simp [Cli.successEntry, Cli.tokensOf, ho, List.filterMap_cons, ih]

/-- Every glob-free CLI argument contributes exactly one entry, to the
result list or to the error list. -/
theorem cli_entry_length (env : Env) (encoder : Encoding) (files : List String) :
    (List.filterMap (Cli.successEntry env encoder) files).length
        + (List.filterMap (Cli.errorEntry env encoder) files).length
      = files.length := by
  induction files with
  | nil => rfl
  | cons p ps ih =>
      cases ho : Cli.fileOutcome env encoder p <;>
        simp [Cli.successEntry, Cli.errorEntry, ho, List.filterMap_cons] <;>
        omega

/-- Unfolding of `Cli.main` when at least one file is given and the
`--list-encodings` flag is off and the encoder resolves. -/
theorem cli_main_ok (lib : Tiktoken) (env : Env) (args : Cli.Args)
    (hfiles : args.files ≠ []) (hflag : args.list_encodings_flag = false)
    (encoder : Encoding)
    (henc : get_encoder lib (some args.model) args.encoding = Except.ok encoder) :
    Cli.main lib env args =
      Cli.Outcome.ran (Cli.run env encoder args.files).results
        (Cli.run env encoder args.files).errors
        (Cli.run env encoder args.files).total_tokens
        (if (Cli.run env encoder args.files).results = []
            ∧ (Cli.run env encoder args.files).errors ≠ [] then 1 else 0) := by
  have hne : args.files.isEmpty = false := by
    cases h : args.files with
    | nil => exact absurd h hfiles
    | cons a as => rfl
  simp [Cli.main, hflag, hne, henc]

/-- Unfolding of `Cli.main` when at least one file is given and the
`--list-encodings` flag is off and encoder resolution raises a KeyError:
the `except KeyError` clause catches it and the failure is reported as a
printed message. -/
theorem cli_main_keyerror (lib : Tiktoken) (env : Env) (args : Cli.Args)
    (hfiles : args.files ≠ []) (hflag : args.list_encodings_flag = false)
    (m : String)
    (henc : get_encoder lib (some args.model) args.encoding
        = Except.error (PyErr.keyError m)) :
    Cli.main lib env args =
      Cli.Outcome.resolutionError ("Error: Unknown model or encoding: " ++ m) := by
  have hne : args.files.isEmpty = false := by
    cases h : args.files with
    | nil => exact absurd h hfiles
    | cons a as => rfl
  simp [Cli.main, hflag, hne, henc]

/-- Unfolding of `Cli.main` when at least one file is given and the
`--list-encodings` flag is off and encoder resolution raises a ValueError
(tiktoken's failure for an unknown encoding name): no clause catches it,
so the program crashes. -/
theorem cli_main_valueerror (lib : Tiktoken) (env : Env) (args : Cli.Args)
    (hfiles : args.files ≠ []) (hflag : args.list_encodings_flag = false)
    (m : String)
    (henc : get_encoder lib (some args.model) args.encoding
        = Except.error (PyErr.valueError m)) :
    Cli.main lib env args = Cli.Outcome.crashed (PyErr.valueError m) := by
  have hne : args.files.isEmpty = false := by
    cases h : args.files with
    | nil => exact absurd h hfiles
    | cons a as => rfl
  simp [Cli.main, hflag, hne, henc]

/-- C1: In every call to `get_encoder` (the function both entry points
share), a nonempty encoding name is resolved directly through the library
and the model argument is ignored; otherwise a nonempty model name known to
the static table resolves to the mapped encoding; a model name unknown to
the table is delegated to the library's own model-name lookup; and when
neither is given the encoding mapped to the fixed default model is used. -/
theorem get_encoder_precedence (lib : Tiktoken) (model encoding : Option String) :
    (∀ e, encoding = some e → e ≠ "" →
        get_encoder lib model encoding = lib.get_encoding e ∧
        ∀ model2, get_encoder lib model2 encoding = get_encoder lib model encoding) ∧
    (pyTruthy encoding = false →
      ∀ m, model = some m → m ≠ "" →
        (∀ ename, List.lookup m MODEL_ENCODINGS = some ename →
            get_encoder lib model encoding = lib.get_encoding ename) ∧
        (List.lookup m MODEL_ENCODINGS = none →
            get_encoder lib model encoding = lib.encoding_for_model m)) ∧
    (pyTruthy encoding = false → pyTruthy model = false →
      ∀ dflt, List.lookup DEFAULT_MODEL MODEL_ENCODINGS = some dflt →
        get_encoder lib model encoding = lib.get_encoding dflt) := by
  refine ⟨?_, ?_, ?_⟩
  · intro e he hne
    subst he
    have ht : pyTruthy (some e) = true := by simp [pyTruthy, hne]
    constructor
    · simp [get_encoder, ht]
    · intro model2
      simp [get_encoder, ht]
  · intro hf m hm hmne
    subst hm
    have ht : pyTruthy (some m) = true := by simp [pyTruthy, hmne]
    constructor
    · intro ename hl
      simp [get_encoder, hf, ht, hl]
    · intro hl
      simp [get_encoder, hf, ht, hl]
  · intro hf hm dflt hl
    simp [get_encoder, hf, hm, hl]

/-- Witness for `get_encoder_precedence` at concrete inputs covering all
four branches of the precedence order. -/
theorem get_encoder_precedence_witness :
    (get_encoder libW (some "gpt-4") (some "o200k_base")
        = libW.get_encoding "o200k_base" ∧
     ∀ model2, get_encoder libW model2 (some "o200k_base")
        = get_encoder libW (some "gpt-4") (some "o200k_base")) ∧
    get_encoder libW (some "gpt-4") none = libW.get_encoding "cl100k_base" ∧
    get_encoder libW (some "davinci-002") none
        = libW.encoding_for_model "davinci-002" ∧
    get_encoder libW none none = libW.get_encoding "o200k_base" := by
  refine ⟨?_, ?_, ?_, ?_⟩
  · exact (get_encoder_precedence libW (some "gpt-4") (some "o200k_base")).1
      "o200k_base" rfl (by decide)
  · exact ((get_encoder_precedence libW (some "gpt-4") none).2.1 rfl
      "gpt-4" rfl (by decide)).1 "cl100k_base" (by decide)
  · exact ((get_encoder_precedence libW (some "davinci-002") none).2.1 rfl
      "davinci-002" rfl (by decide)).2 (by decide)
  · exact (get_encoder_precedence libW none none).2.2 rfl rfl
      "o200k_base" (by decide)

/-- C8: `count_text_tokens` on the empty string, for any model the library
resolves (and whose encoder, being a BPE tokenizer, assigns the empty token
sequence to the empty string), returns token count 0 and character
count 0. -/
theorem count_text_tokens_empty (lib : Tiktoken) (model : String) (encoder : Encoding)
    (hres : get_encoder lib (some model) none = Except.ok encoder)
    (hempty : encoder.encode "" = []) :
    Mcp.count_text_tokens lib "" model =
      Except.ok { tokens := 0, characters := 0, model := model,
                  encoding := encoder.name } := by
  simp [Mcp.count_text_tokens, hres, hempty]

/-- Witness for `count_text_tokens_empty` with the concrete library model
and the default model name. -/
theorem count_text_tokens_empty_witness :
    Mcp.count_text_tokens libW "" "gpt-5" =
      Except.ok { tokens := 0, characters := 0, model := "gpt-5",
                  encoding := "o200k_base" } :=
  count_text_tokens_empty libW "gpt-5" encW rfl rfl

/-- C10: `count_tokens_multi` on the empty path list, for any model the
library resolves, returns an empty files list, total 0, file count 0 and an
absent errors field. -/
theorem count_tokens_multi_empty (lib : Tiktoken) (env : Env) (model : String)
    (encoder : Encoding)
    (hres : get_encoder lib (some model) none = Except.ok encoder) :
    Mcp.count_tokens_multi lib env [] model =
      Except.ok { files := [], total_tokens := 0, file_count := 0,
                  model := model, encoding := encoder.name, errors := none } := by
  rw [mcp_multi_ok lib env [] model encoder hres]
  simp

/-- Witness for `count_tokens_multi_empty` with the concrete library and
environment models. -/
theorem count_tokens_multi_empty_witness :
    Mcp.count_tokens_multi libW envW [] "gpt-5" =
      Except.ok { files := [], total_tokens := 0, file_count := 0,
                  model := "gpt-5", encoding := "o200k_base", errors := none } :=
  count_tokens_multi_empty libW envW "gpt-5" encW rfl

/-- Error messages of the shape produced by the catch-all clause are
nonempty. -/
theorem err_reading_ne_empty (p m : String) :
    "Error reading " ++ p ++ ": " ++ m ≠ "" :=
  string_append_ne_empty _ _
    (string_append_ne_empty _ _ (string_append_ne_empty _ _ (by decide)))

/-- C9: `count_file_tokens` is total: a successful read and encode yields
the content's token count paired with no error, and every failure yields
count 0 paired with a nonempty error message; the error is absent exactly
when the read succeeded. -/
theorem count_file_tokens_total_spec (env : Env) (p : String) (encoder : Encoding) :
    (∀ content, env.fs p = FsNode.file (ReadOutcome.ok content) →
        Cli.count_file_tokens env p encoder = ((encoder.encode content).length, none)) ∧
    (∀ n err, Cli.count_file_tokens env p encoder = (n, some err) → n = 0 ∧ err ≠ "") ∧
    ((Cli.count_file_tokens env p encoder).2 = none ↔
        ∃ content, env.fs p = FsNode.file (ReadOutcome.ok content)) := by
  refine ⟨?_, ?_, ?_⟩
  · intro content h
    simp [Cli.count_file_tokens, Cli.count_tokens, h]
  · intro n err h
    cases hfs : env.fs p with
    | absent =>
        simp only [Cli.count_file_tokens, hfs, Prod.mk.injEq, Option.some.injEq] at h
        refine ⟨h.1.symm, ?_⟩
        rw [← h.2]
        exact string_append_ne_empty _ _ (by decide)
    | dir =>
        simp only [Cli.count_file_tokens, hfs, Prod.mk.injEq, Option.some.injEq] at h
        refine ⟨h.1.symm, ?_⟩
        rw [← h.2]
        exact err_reading_ne_empty p (isADirectoryErrorText p)
    | file r =>
        cases r with
        | ok content => simp [Cli.count_file_tokens, hfs] at h
        | permissionDenied =>
            simp only [Cli.count_file_tokens, hfs, Prod.mk.injEq, Option.some.injEq] at h
            refine ⟨h.1.symm, ?_⟩
            rw [← h.2]
            exact string_append_ne_empty _ _ (by decide)
        | notUtf8 =>
            simp only [Cli.count_file_tokens, hfs, Prod.mk.injEq, Option.some.injEq] at h
            refine ⟨h.1.symm, ?_⟩
            rw [← h.2]
            exact string_append_ne_empty _ _ (by decide)
        | otherError m =>
            simp only [Cli.count_file_tokens, hfs, Prod.mk.injEq, Option.some.injEq] at h
            refine ⟨h.1.symm, ?_⟩
            rw [← h.2]
            exact err_reading_ne_empty p m
  · cases hfs : env.fs p with
    | absent => simp [Cli.count_file_tokens, hfs]
    | dir => simp [Cli.count_file_tokens, hfs]
    | file r => cases r <;> simp [Cli.count_file_tokens, hfs]

/-- Witness for `count_file_tokens_total_spec`: a successful read and a
missing file, both at concrete inputs. -/
theorem count_file_tokens_total_spec_witness :
    Cli.count_file_tokens envW "a.txt" encW = ((encW.encode "hi").length, none) ∧
    ((0 : Nat) = 0 ∧ "File not found: nope" ≠ "") :=
  ⟨(count_file_tokens_total_spec envW "a.txt" encW).1 "hi" rfl,
   (count_file_tokens_total_spec envW "nope" encW).2.1 0 "File not found: nope" rfl⟩

/-- C2 counterexample: with an encoding name the library does not know,
the CLI run crashes — `get_encoding` raises ValueError, which the
source's `except KeyError` clause (count_tokens.py line 197) does not
catch — instead of reporting the claimed unknown-model-or-encoding
message to the caller. -/
theorem cli_crash_counterexample :
    Cli.main libW envW
        { files := ["a.txt"], model := "gpt-5", encoding := some "bogus",
          verbose := false, list_encodings_flag := false }
      = Cli.Outcome.crashed (PyErr.valueError ("Unknown encoding bogus")) := by
  rfl

/-- C2 amended: For a CLI invocation with at least one file argument (and
without the listing flag), a resolution failure raising KeyError — the
library's unknown-model failure, the only type the except clause catches —
is reported as the printed unknown-model-or-encoding message with exit
status 1; a resolution failure raising ValueError (the library's
unknown-encoding failure) propagates as an uncaught exception, which also
terminates the process with status 1 but without the message; otherwise
the exit status is 0 exactly when some file produced a result or there
were no errors, and 1 exactly when there are errors and no results. -/
theorem cli_exit_code_spec (lib : Tiktoken) (env : Env) (args : Cli.Args)
    (hfiles : args.files ≠ []) (hflag : args.list_encodings_flag = false) :
    (∀ m, get_encoder lib (some args.model) args.encoding
          = Except.error (PyErr.keyError m) →
        Cli.main lib env args =
          Cli.Outcome.resolutionError ("Error: Unknown model or encoding: " ++ m) ∧
        Cli.Outcome.exit_code (Cli.main lib env args) = 1) ∧
    (∀ m, get_encoder lib (some args.model) args.encoding
          = Except.error (PyErr.valueError m) →
        Cli.main lib env args = Cli.Outcome.crashed (PyErr.valueError m) ∧
        Cli.Outcome.exit_code (Cli.main lib env args) = 1) ∧
    ∀ encoder, get_encoder lib (some args.model) args.encoding = Except.ok encoder →
      (Cli.Outcome.exit_code (Cli.main lib env args) = 0 ↔
          (Cli.run env encoder args.files).results ≠ []
            ∨ (Cli.run env encoder args.files).errors = []) ∧
      (Cli.Outcome.exit_code (Cli.main lib env args) = 1 ↔
          (Cli.run env encoder args.files).results = []
            ∧ (Cli.run env encoder args.files).errors ≠ []) := by
  refine ⟨?_, ?_, ?_⟩
  · intro m he
    rw [cli_main_keyerror lib env args hfiles hflag m he]
    exact ⟨rfl, rfl⟩
  · intro m he
    rw [cli_main_valueerror lib env args hfiles hflag m he]
    exact ⟨rfl, rfl⟩
  · intro encoder henc
    rw [cli_main_ok lib env args hfiles hflag encoder henc]
    by_cases h : (Cli.run env encoder args.files).results = []
        ∧ (Cli.run env encoder args.files).errors ≠ []
    · simp only [Cli.Outcome.exit_code, if_pos h]
      constructor
      · constructor
        · intro h10
          exact absurd h10 one_ne_zero
        · intro hor
          rcases hor with hr | he2
          · exact absurd h.1 hr
          · exact absurd he2 h.2
      · simp [h]
    · simp only [Cli.Outcome.exit_code, if_neg h]
      constructor
      · constructor
        · intro _
          by_cases hr : (Cli.run env encoder args.files).results = []
          · right
            by_contra he2
            exact h ⟨hr, he2⟩
          · left
            exact hr
        · intro _
          trivial
      · constructor
        · intro h01
          exact absurd h01.symm one_ne_zero
        · intro hc
          exact absurd hc h

/-- Witness for `cli_exit_code_spec`: one readable file gives exit
status 0, and an unknown model name is reported with the printed message. -/
theorem cli_exit_code_spec_witness :
    Cli.Outcome.exit_code (Cli.main libW envW argsW) = 0 ∧
    Cli.main libW envW
        { files := ["a.txt"], model := "unknown-model", encoding := none,
          verbose := false, list_encodings_flag := false }
      = Cli.Outcome.resolutionError
          ("Error: Unknown model or encoding: Could not automatically map unknown-model to a tokeniser.") :=
  ⟨((cli_exit_code_spec libW envW argsW (by decide) rfl).2.2 encW rfl).1.mpr
      (Or.inl (by decide)),
   ((cli_exit_code_spec libW envW
        { files := ["a.txt"], model := "unknown-model", encoding := none,
          verbose := false, list_encodings_flag := false } (by decide) rfl).1
      ("Could not automatically map unknown-model to a tokeniser.") rfl).1⟩

/-- The errors field of the multi result, defaulted to the empty list,
recovers the accumulated error list. -/
theorem getD_if_empty (E : List String) :
    (if E = [] then (none : Option (List String)) else some E).getD [] = E := by
  by_cases h : E = [] <;> simp [h]

/-- C3: Batch counting's reported total equals the sum of the token counts
of the files that counted successfully; each input path contributes exactly
one entry, to the results list or to the error list, in input order; a path
that errors contributes zero to the total. Stated for the
`count_tokens_multi` tool and for the glob-free CLI loop. -/
theorem batch_total_partition (lib : Tiktoken) (env : Env) (file_paths : List String)
    (model : String) (encoder : Encoding)
    (hres : get_encoder lib (some model) none = Except.ok encoder)
    (encoder2 : Encoding) (files2 : List String)
    (hstar : ∀ p ∈ files2, p.data.contains '*' = false) :
    (∀ r, Mcp.count_tokens_multi lib env file_paths model = Except.ok r →
        r.total_tokens = (List.map Mcp.FileTokens.tokens r.files).sum ∧
        r.files.length + (r.errors.getD []).length = file_paths.length ∧
        r.files = List.filterMap (Mcp.successEntry env encoder) file_paths ∧
        r.errors.getD [] = List.filterMap (Mcp.errorEntry env encoder) file_paths) ∧
    ((Cli.run env encoder2 files2).total_tokens
        = (List.map Prod.snd (Cli.run env encoder2 files2).results).sum ∧
     (Cli.run env encoder2 files2).results.length
        + (Cli.run env encoder2 files2).errors.length = files2.length) := by
  constructor
  · intro r hr
    rw [mcp_multi_ok lib env file_paths model encoder hres] at hr
    injection hr with hr
    subst hr
    refine ⟨?_, ?_, rfl, ?_⟩
    · exact (mcp_sum_tokens env encoder file_paths).symm
    · rw [getD_if_empty]
      exact mcp_entry_length env encoder file_paths
    · rw [getD_if_empty]
  · obtain ⟨h1, h2, h3⟩ := cli_run_spec env encoder2 files2 hstar
    constructor
    · rw [h3, h1]
      exact (cli_sum_tokens env encoder2 files2).symm
    · rw [h1, h2]
      exact cli_entry_length env encoder2 files2

/-- Witness for `batch_total_partition`: with one readable file and one
missing file, the reported total is the one successful count. -/
theorem batch_total_partition_witness :
    (2 : Nat) = (List.map Mcp.FileTokens.tokens
        (List.filterMap (Mcp.successEntry envW encW) ["a.txt", "nope"])).sum := by
  have h := (batch_total_partition libW envW ["a.txt", "nope"] "gpt-5" encW rfl encW
      ["a.txt", "d"] (by decide)).1
      ⟨[⟨"a.txt", 2⟩], 2, 1, "gpt-5", "o200k_base", some ["File not found: nope"]⟩ rfl
  rw [← h.2.2.1]
  exact h.1

/-- C4: Batch counting resolves the encoder exactly once and shares it:
its behaviour depends on the library only through the single `get_encoder`
call, and every path is classified against that one encoder. A failure on
one file does not stop later files: processing a concatenation of path
lists concatenates the result lists, the error lists and the totals, and
both output lists preserve the input order (they are the order-preserving
filters of the input). Stated for `count_tokens_multi` and for the
glob-free CLI loop. -/
theorem batch_shared_encoder_isolation (lib lib2 : Tiktoken) (env : Env)
    (xs ys : List String) (model : String) (encoder : Encoding)
    (hres : get_encoder lib (some model) none = Except.ok encoder)
    (hsame : get_encoder lib2 (some model) none = get_encoder lib (some model) none)
    (encoder2 : Encoding) (cxs cys : List String)
    (hstar : ∀ p ∈ cxs ++ cys, p.data.contains '*' = false) :
    (∀ paths, Mcp.count_tokens_multi lib2 env paths model
        = Mcp.count_tokens_multi lib env paths model) ∧
    (∀ paths r, Mcp.count_tokens_multi lib env paths model = Except.ok r →
        r.files = List.filterMap (Mcp.successEntry env encoder) paths ∧
        r.errors.getD [] = List.filterMap (Mcp.errorEntry env encoder) paths) ∧
    (∀ r rx ry,
        Mcp.count_tokens_multi lib env (xs ++ ys) model = Except.ok r →
        Mcp.count_tokens_multi lib env xs model = Except.ok rx →
        Mcp.count_tokens_multi lib env ys model = Except.ok ry →
          r.files = rx.files ++ ry.files ∧
          r.errors.getD [] = rx.errors.getD [] ++ ry.errors.getD [] ∧
          r.total_tokens = rx.total_tokens + ry.total_tokens) ∧
    ((Cli.run env encoder2 (cxs ++ cys)).results
        = (Cli.run env encoder2 cxs).results ++ (Cli.run env encoder2 cys).results ∧
     (Cli.run env encoder2 (cxs ++ cys)).errors
        = (Cli.run env encoder2 cxs).errors ++ (Cli.run env encoder2 cys).errors) := by
  have hxs : ∀ p ∈ cxs, p.data.contains '*' = false :=
    fun p hp => hstar p (List.mem_append_left cys hp)
  have hys : ∀ p ∈ cys, p.data.contains '*' = false :=
    fun p hp => hstar p (List.mem_append_right cxs hp)
  refine ⟨?_, ?_, ?_, ?_⟩
  · intro paths
    simp only [Mcp.count_tokens_multi, hsame]
  · intro paths r hr
    rw [mcp_multi_ok lib env paths model encoder hres] at hr
    injection hr with hr
    subst hr
    exact ⟨rfl, getD_if_empty _⟩
  · intro r rx ry hr hrx hry
    rw [mcp_multi_ok lib env (xs ++ ys) model encoder hres] at hr
    rw [mcp_multi_ok lib env xs model encoder hres] at hrx
    rw [mcp_multi_ok lib env ys model encoder hres] at hry
    injection hr with hr
    injection hrx with hrx
    injection hry with hry
    subst hr
    subst hrx
    subst hry
    refine ⟨?_, ?_, ?_⟩
    · simp [List.filterMap_append]
    · simp only [getD_if_empty]
      simp [List.filterMap_append]
    · simp [List.map_append]
  · obtain ⟨ha1, ha2, _⟩ := cli_run_spec env encoder2 (cxs ++ cys) hstar
    obtain ⟨hx1, hx2, _⟩ := cli_run_spec env encoder2 cxs hxs
    obtain ⟨hy1, hy2, _⟩ := cli_run_spec env encoder2 cys hys
    constructor
    · rw [ha1, hx1, hy1, List.filterMap_append]
    · rw [ha2, hx2, hy2, List.filterMap_append]

/-- Witness for `batch_shared_encoder_isolation`: a success in the first
sublist and a directory in the second are both processed. -/
theorem batch_shared_encoder_isolation_witness :
    (Cli.run envW encW (["a.txt"] ++ ["d"])).results
        = (Cli.run envW encW ["a.txt"]).results ++ (Cli.run envW encW ["d"]).results ∧
    (Cli.run envW encW (["a.txt"] ++ ["d"])).errors
        = (Cli.run envW encW ["a.txt"]).errors ++ (Cli.run envW encW ["d"]).errors :=
  (batch_shared_encoder_isolation libW libW envW ["a.txt"] ["nope"] "gpt-5" encW rfl rfl
      encW ["a.txt"] ["d"] (by decide)).2.2.2

/-- C5 counterexample: with a library that cannot resolve the given model
name, `count_text_tokens` and `count_tokens_multi` themselves raise — the
KeyError from `get_encoder` propagates out of the tool function (modelled
as `Except.error`) instead of being converted into a structured error
field of a result record. -/
theorem mcp_raises_counterexample :
    Mcp.count_text_tokens libW "hi" "not-a-model"
        = Except.error
            (PyErr.keyError ("Could not automatically map not-a-model to a tokeniser.")) ∧
    Mcp.count_tokens_multi libW envW ["a.txt"] "not-a-model"
        = Except.error
            (PyErr.keyError ("Could not automatically map not-a-model to a tokeniser.")) := by
  constructor <;> rfl

/-- C5 amended: the `count_tokens` tool never raises — every failure,
including a failed encoder resolution, becomes an error field with
tokens 0 — and once the encoder resolves, `count_tokens_multi` and
`count_text_tokens` return well-formed records with per-file failures in
the errors field; but both propagate an encoder-resolution failure outward
instead of converting it (`list_encodings` reads only library and static
data). -/
theorem mcp_error_containment (lib : Tiktoken) (env : Env) (p text model : String)
    (paths : List String) :
    (∀ m, (Mcp.count_tokens lib env p model).error = some m →
        (Mcp.count_tokens lib env p model).tokens = 0) ∧
    (∀ e, get_encoder lib (some model) none = Except.error e →
        env.fs p ≠ FsNode.absent → env.fs p ≠ FsNode.dir →
        Mcp.count_tokens lib env p model =
          { error := some e.text, file_path := p, tokens := 0,
            model := none, encoding := none }) ∧
    (∀ e, get_encoder lib (some model) none = Except.error e →
        Mcp.count_tokens_multi lib env paths model = Except.error e ∧
        Mcp.count_text_tokens lib text model = Except.error e) ∧
    (∀ encoder, get_encoder lib (some model) none = Except.ok encoder →
        Mcp.count_tokens_multi lib env paths model =
          Except.ok
            { files := List.filterMap (Mcp.successEntry env encoder) paths,
              total_tokens := (List.map (Mcp.tokensOf env encoder) paths).sum,
              file_count := (List.filterMap (Mcp.successEntry env encoder) paths).length,
              model := model,
              encoding := encoder.name,
              errors :=
                if List.filterMap (Mcp.errorEntry env encoder) paths = [] then none
                else some (List.filterMap (Mcp.errorEntry env encoder) paths) } ∧
        Mcp.count_text_tokens lib text model =
          Except.ok
            { tokens := (encoder.encode text).length, characters := text.length,
              model := model, encoding := encoder.name }) := by
  refine ⟨?_, ?_, ?_, ?_⟩
  · intro m hm
    cases hfs : env.fs p with
    | absent => simp [Mcp.count_tokens, hfs]
    | dir => simp [Mcp.count_tokens, hfs]
    | file r =>
        cases hg : get_encoder lib (some model) none with
        | error e => simp [Mcp.count_tokens, hfs, hg]
        | ok encoder =>
            cases r with
            | ok content => simp [Mcp.count_tokens, hfs, hg] at hm
            | permissionDenied => simp [Mcp.count_tokens, hfs, hg]
            | notUtf8 => simp [Mcp.count_tokens, hfs, hg]
            | otherError m2 => simp [Mcp.count_tokens, hfs, hg]
  · intro e he hna hnd
    cases hfs : env.fs p with
    | absent => exact absurd hfs hna
    | dir => exact absurd hfs hnd
    | file r => simp [Mcp.count_tokens, hfs, he]
  · intro e he
    constructor
    · simp [Mcp.count_tokens_multi, he]
    · simp [Mcp.count_text_tokens, he]
  · intro encoder henc
    constructor
    · exact mcp_multi_ok lib env paths model encoder henc
    · simp [Mcp.count_text_tokens, henc]

/-- Witness for `mcp_error_containment`: a missing file gives an error
field with tokens 0, and an unresolvable model makes the multi and text
tools propagate the failure. -/
theorem mcp_error_containment_witness :
    (Mcp.count_tokens libW envW "nope" "gpt-5").tokens = 0 ∧
    Mcp.count_tokens_multi libW envW ["a.txt"] "bad-model"
        = Except.error
            (PyErr.keyError ("Could not automatically map bad-model to a tokeniser.")) ∧
    Mcp.count_tokens libW envW "locked.txt" "bad-model"
        = { error := some ("Could not automatically map bad-model to a tokeniser."),
            file_path := "locked.txt", tokens := 0, model := none, encoding := none } := by
  refine ⟨?_, ?_, ?_⟩
  · exact (mcp_error_containment libW envW "nope" "hi" "gpt-5" ["a.txt"]).1
      ("File not found: " ++ "nope") rfl
  · exact ((mcp_error_containment libW envW "nope" "hi" "bad-model" ["a.txt"]).2.2.1
      (PyErr.keyError ("Could not automatically map bad-model to a tokeniser.")) rfl).1
  · exact (mcp_error_containment libW envW "locked.txt" "hi" "bad-model" ["a.txt"]).2.1
      (PyErr.keyError ("Could not automatically map bad-model to a tokeniser.")) rfl
      (by decide) (by decide)

/-- C6: A nonexistent path yields count 0 with a file-not-found message
containing the path in `count_file_tokens`; a CLI run whose only input it
is exits with status 1; and the `count_tokens` tool returns an error field
with tokens 0. -/
theorem file_not_found_spec (lib : Tiktoken) (env : Env) (p model : String)
    (encoding : Option String) (encoder : Encoding)
    (habs : env.fs p = FsNode.absent) (hstar : p.data.contains '*' = false) :
    Cli.count_file_tokens env p encoder = (0, some ("File not found: " ++ p)) ∧
    (∃ before after, "File not found: " ++ p = before ++ p ++ after) ∧
    Cli.Outcome.exit_code (Cli.main lib env
        { files := [p], model := model, encoding := encoding,
          verbose := false, list_encodings_flag := false }) = 1 ∧
    Mcp.count_tokens lib env p model =
      { error := some ("File not found: " ++ p), file_path := p,
        tokens := 0, model := none, encoding := none } := by
  refine ⟨?_, ?_, ?_, ?_⟩
  · simp [Cli.count_file_tokens, habs]
  · exact ⟨"File not found: ", "", by rw [String.append_empty]⟩
  · cases hg : get_encoder lib (some model) encoding with
    | error e =>
        cases e with
        | keyError m =>
            rw [cli_main_keyerror lib env _ (by simp) rfl m hg]
            rfl
        | valueError m =>
            rw [cli_main_valueerror lib env _ (by simp) rfl m hg]
            rfl
    | ok encoder2 =>
        rw [cli_main_ok lib env _ (by simp) rfl encoder2 hg]
        have hfo : Cli.fileOutcome env encoder2 p
            = Except.error ("File not found: " ++ p) := by
          have hd : env.is_dir p = false := by simp [Env.is_dir, habs]
          simp [Cli.fileOutcome, hd, Cli.count_file_tokens, habs]
        obtain ⟨h1, h2, _⟩ := cli_run_spec env encoder2 [p]
          (by intro q hq; simp at hq; subst hq; exact hstar)
        have hres : (Cli.run env encoder2 [p]).results = [] := by
          rw [h1]
          simp [Cli.successEntry, hfo]
        have herr : (Cli.run env encoder2 [p]).errors
            = ["File not found: " ++ p] := by
          rw [h2]
          simp [Cli.errorEntry, hfo]
        simp [Cli.Outcome.exit_code, hres, herr]
  · simp [Mcp.count_tokens, habs]

/-- Witness for `file_not_found_spec` at a concrete missing path. -/
theorem file_not_found_spec_witness :
    Cli.count_file_tokens envW "nope" encW = (0, some ("File not found: " ++ "nope")) ∧
    Cli.Outcome.exit_code (Cli.main libW envW
        { files := ["nope"], model := "gpt-5", encoding := none,
          verbose := false, list_encodings_flag := false }) = 1 := by
  have h := file_not_found_spec libW envW "nope" "gpt-5" none encW rfl (by decide)
  exact ⟨h.1, h.2.2.1⟩

/-- C7: A directory path is reported as a skipped or error entry with
count 0 by the CLI loop, the `count_tokens` tool and the
`count_tokens_multi` loop, and in each case the outcome is independent of
the encoder (and of the library), so the directory's contents are never
passed to the encoder's encode operation. -/
theorem directory_skipped_spec (lib lib2 : Tiktoken) (env : Env) (p model : String)
    (encoder encoder2 : Encoding) (acc : Cli.Acc) (macc : Mcp.MultiAcc)
    (hdir : env.fs p = FsNode.dir) :
    Cli.processFile env encoder acc p =
      { acc with errors := acc.errors ++ ["Skipping directory: " ++ p] } ∧
    Cli.processFile env encoder acc p = Cli.processFile env encoder2 acc p ∧
    Mcp.count_tokens lib env p model =
      { error := some ("Path is a directory: " ++ p), file_path := p,
        tokens := 0, model := none, encoding := none } ∧
    Mcp.count_tokens lib env p model = Mcp.count_tokens lib2 env p model ∧
    Mcp.multiStep env encoder macc p =
      { macc with errors := macc.errors ++ ["Path is a directory: " ++ p] } ∧
    Mcp.multiStep env encoder macc p = Mcp.multiStep env encoder2 macc p := by
  have hd : env.is_dir p = true := by simp [Env.is_dir, hdir]
  refine ⟨?_, ?_, ?_, ?_, ?_, ?_⟩ <;>
    simp [Cli.processFile, Mcp.count_tokens, Mcp.multiStep, hd, hdir]

/-- Witness for `directory_skipped_spec` at a concrete directory path. -/
theorem directory_skipped_spec_witness :
    Mcp.count_tokens libW envW "d" "gpt-5" =
      { error := some ("Path is a directory: " ++ "d"), file_path := "d",
        tokens := 0, model := none, encoding := none } ∧
    Cli.processFile envW encW ⟨[], [], 0⟩ "d" =
      { results := [], errors := [] ++ ["Skipping directory: " ++ "d"],
        total_tokens := 0 } := by
  have h := directory_skipped_spec libW libW envW "d" "gpt-5" encW encW
      ⟨[], [], 0⟩ ⟨[], [], 0⟩ rfl
  exact ⟨h.2.2.1, h.1⟩
